import Mathlib

/-!
Verification of `src/server.py`, a minimal Flask application with two
static text routes.  The Python source is shallowly embedded below:
the two route handlers become Lean constants, Flask's request dispatch
(exact path matching, the declared method list plus the automatically
added `HEAD` and `OPTIONS` methods, default 404/405 error responses,
and the default mimetype for string return values) becomes the
function `dispatch`, and the `__main__` block becomes an explicit list
of effects `mainEffects`.
-/

namespace Server

/-- HTTP request methods relevant to the embedding. -/
inductive Method
  | GET
  | POST
  | HEAD
  | OPTIONS
  | PUT
  | DELETE
  | PATCH
  deriving DecidableEq, Repr

/-- An HTTP request, as far as this server inspects it: a method and a path. -/
structure Request where
  method : Method
  path : String
  deriving DecidableEq, Repr

/-- An HTTP response: status code, body, and content type. -/
structure Response where
  status : Nat
  body : String
  contentType : String
  deriving DecidableEq, Repr

/-- `hostname = '127.0.0.1'` (src/server.py line 4). -/
def hostname : String := "127.0.0.1"

/-- `port = 3000` (src/server.py line 5). -/
def port : Nat := 3000

/-- Handler `index` (src/server.py lines 11-14): returns the greeting
with a trailing newline. -/
def index : String := "Hello, World!\n"

/-- Handler `evening` (src/server.py lines 16-19): returns the greeting
without a trailing newline. -/
def evening : String := "Good evening"

/-- A registered route: the rule string, the declared methods, and the
string the view function returns. -/
structure Route where
  path : String
  methods : List Method
  view : String
  deriving DecidableEq, Repr

/-- The two routes registered on the Flask app `app` by the
`@app.route` decorators (src/server.py lines 11 and 16). -/
def routes : List Route :=
  [ ⟨"/", [Method.GET], index⟩,
    ⟨"/evening", [Method.GET], evening⟩ ]

/-- The methods Flask actually accepts on a route: the declared methods,
plus `HEAD` when `GET` is declared, plus the automatic `OPTIONS`. -/
def allowedMethods (r : Route) : List Method :=
  r.methods
    ++ (if Method.GET ∈ r.methods then [Method.HEAD] else [])
    ++ [Method.OPTIONS]

/-- Route lookup: Flask's URL map matches the request path exactly
against the registered rules (both rules here are declared without a
trailing slash, so with the default `strict_slashes` behaviour the
match is literal). -/
def findRoute (p : String) : Option Route :=
  routes.find? (fun r => r.path == p)

/-- Flask's default mimetype for a view function returning a plain string. -/
def defaultMimetype : String := "text/html; charset=utf-8"

/-- Werkzeug's default 404 response (only its status matters to the claims;
the body stands in for the framework's default error page). -/
def notFoundResponse : Response :=
  ⟨404, "404 Not Found", defaultMimetype⟩

/-- Werkzeug's default 405 response (only its status matters to the claims;
the body stands in for the framework's default error page). -/
def methodNotAllowedResponse : Response :=
  ⟨405, "405 Method Not Allowed", defaultMimetype⟩

/-- Flask request dispatch for this app: an unmatched path yields the
default 404 for any method; a matched path with a method outside
`allowedMethods` yields the default 405; automatic `OPTIONS` and
`HEAD` responses carry status 200 with the body stripped; a matched
`GET` invokes the view function and wraps its string in a 200 response
with the default mimetype. -/
def dispatch (req : Request) : Response :=
  match findRoute req.path with
  | none => notFoundResponse
  | some r =>
    if req.method ∈ allowedMethods r then
      match req.method with
      | Method.OPTIONS => ⟨200, "", defaultMimetype⟩
      | Method.HEAD => ⟨200, "", defaultMimetype⟩
      | _ => ⟨200, r.view, defaultMimetype⟩
    else methodNotAllowedResponse

/-- The server's handling of a sequence of requests.  The app holds no
mutable state, so serving is pointwise dispatch. -/
def serveRequests (reqs : List Request) : List Response :=
  reqs.map dispatch

/-- Observable startup effects of the process. -/
inductive Effect
  | print (s : String)
  | serve (host : String) (p : Nat)
  deriving DecidableEq, Repr

/-- The `__main__` block (src/server.py lines 22-24): print the bound
address, then enter the serve loop via `app.run(host=hostname, port=port)`. -/
def mainEffects : List Effect :=
  [ Effect.print ("Server running at http://" ++ hostname ++ ":" ++ toString port ++ "/"),
    Effect.serve hostname port ]

/-- A content type counts as text when it is in the `text/` family. -/
def isTextContentType (s : String) : Bool :=
  s.data.take 5 == "text/".data

end Server

namespace Server

/-- Helper: the element sitting right after a prefix of known length. -/
theorem getElem?_append_cons {α : Type} (l1 l2 : List α) (a : α) :
    (l1 ++ a :: l2)[l1.length]? = some a := by
  induction l1 with
  | nil => simp
  | cons x xs ih => simpa using ih

/-- Claim C1: a GET request to `/` yields status 200 and a body equal
exactly to "Hello, World!\n", including the trailing newline. -/
theorem claim1_get_root :
    (dispatch ⟨Method.GET, "/"⟩).status = 200 ∧
    (dispatch ⟨Method.GET, "/"⟩).body = "Hello, World!\n" := by
  decide

/-- Claim C2: a GET request to `/evening` yields status 200 and a body
equal exactly to "Good evening", with no trailing newline. -/
theorem claim2_get_evening :
    (dispatch ⟨Method.GET, "/evening"⟩).status = 200 ∧
    (dispatch ⟨Method.GET, "/evening"⟩).body = "Good evening" := by
  decide

/-- Claim C3: a request whose path is neither `/` nor `/evening` is
answered with status 404, whatever the method. -/
theorem claim3_unknown_path_404 (m : Method) (p : String)
    (h1 : p ≠ "/") (h2 : p ≠ "/evening") :
    (dispatch ⟨m, p⟩).status = 404 := by
  have e1 : ("/" == p) = false := beq_eq_false_iff_ne.mpr (fun h => h1 h.symm)
  have e2 : ("/evening" == p) = false := beq_eq_false_iff_ne.mpr (fun h => h2 h.symm)
  simp [dispatch, findRoute, routes, List.find?, e1, e2, notFoundResponse]

/-- Witness for claim C3 at the concrete request `POST /missing`. -/
theorem claim3_unknown_path_404_witness :
    (dispatch ⟨Method.POST, "/missing"⟩).status = 404 :=
  claim3_unknown_path_404 Method.POST "/missing" (by decide) (by decide)

/-- Claim C4: a POST request to `/` and a POST request to `/evening`
are both answered with status 405, since the routes declare only GET. -/
theorem claim4_post_405 :
    (dispatch ⟨Method.POST, "/"⟩).status = 405 ∧
    (dispatch ⟨Method.POST, "/evening"⟩).status = 405 := by
  decide

/-- Claim C5: the configured bind address is host `127.0.0.1` and port
3000, and the serve effect of the `__main__` block binds to exactly
these values (every serve effect in the startup trace uses them). -/
theorem claim5_bind_address :
    hostname = "127.0.0.1" ∧ port = 3000 ∧
    Effect.serve hostname port ∈ mainEffects ∧
    (mainEffects.all (fun e => match e with
      | Effect.serve h p => h == "127.0.0.1" && p == 3000
      | _ => true)) = true := by
  decide

/-- Claim C6: the successful GET responses on `/` and on `/evening`
both carry a text content type. -/
theorem claim6_text_content_type :
    isTextContentType (dispatch ⟨Method.GET, "/"⟩).contentType = true ∧
    isTextContentType (dispatch ⟨Method.GET, "/evening"⟩).contentType = true := by
  decide

/-- Claim C7: in the startup trace the print of the bound address
occurs strictly before the serve effect, and the printed string is the
concrete bound address. -/
theorem claim7_print_before_serve :
    mainEffects.indexOf
        (Effect.print ("Server running at http://" ++ hostname ++ ":" ++ toString port ++ "/")) <
      mainEffects.indexOf (Effect.serve hostname port) ∧
    Effect.print "Server running at http://127.0.0.1:3000/" ∈ mainEffects ∧
    Effect.serve hostname port ∈ mainEffects := by
  decide

/-- Claim C8: request handling is stateless and deterministic: the
response produced for a request is the same whatever other requests
surround it in the served sequence. -/
theorem claim8_stateless (pre post pre' post' : List Request) (r : Request) :
    (serveRequests (pre ++ r :: post))[pre.length]? =
      (serveRequests (pre' ++ r :: post'))[pre'.length]? := by
  have k : ∀ (l1 l2 : List Request),
      (serveRequests (l1 ++ r :: l2))[l1.length]? = some (dispatch r) := by
    intro l1 l2
    simp only [serveRequests, List.map_append, List.map_cons]
    simpa using getElem?_append_cons (l1.map dispatch) (l2.map dispatch) (dispatch r)
  rw [k, k]

/-- Claim C9: HEAD requests to `/` and `/evening` are answered 200, as
are the automatic OPTIONS requests, because a GET route also accepts
HEAD and OPTIONS; so not every non-GET method on these paths is rejected. -/
theorem claim9_head_ok :
    (dispatch ⟨Method.HEAD, "/"⟩).status = 200 ∧
    (dispatch ⟨Method.HEAD, "/evening"⟩).status = 200 ∧
    (dispatch ⟨Method.OPTIONS, "/"⟩).status = 200 ∧
    (dispatch ⟨Method.OPTIONS, "/evening"⟩).status = 200 := by
  decide

/-- Claim C10: route matching is exact on the trailing slash: a GET
request to `/evening/` is answered 404, while `/evening` is answered 200. -/
theorem claim10_trailing_slash :
    (dispatch ⟨Method.GET, "/evening/"⟩).status = 404 ∧
    (dispatch ⟨Method.GET, "/evening"⟩).status = 200 := by
  decide

end Server
